import Mathlib

/-!
Shallow embedding of the UDPNode library (src/UDPNode/UDPNode.cpp,
src/UDPNode/UDPNode.h): wire framing (serialize / parseDatagram),
checksum validation (isDatagramValid), the receive-queue operations,
one iteration of the receive loop (rxLoop), the start/stop lifecycle
(startRxLoop / endRxLoop) and the transmit path (tx).

Modelling conventions:
- A message byte is a Nat below 256.  The C++ `char` is modelled as a
  signed 8-bit type (the default on x86 Linux): when a byte b is read
  out of a std::string and promoted to `int` / converted to
  `unsigned int`, a byte of 128 or more sign-extends, which as a
  32-bit unsigned value is 2^32 - 256 + b (function sextChar below).
- Machine integers are Nats; truncation points of the C++ are written
  as explicit `% 256` (unsigned char) at the spots where the source
  narrows.  XOR of two values below 2^32 is below 2^32, so the
  `unsigned int` accumulator in isDatagramValid needs no extra mod.
- The rapidjson frame is modelled at the JSON-object level: a record
  of optional fields Time / Msg / CRC / Join_thr.  serialize builds
  such a frame, parseDatagram reads one, mirroring the Writer calls
  and the HasMember tests of the source line by line.
- Undefined behaviour of the C++ (std::queue front/pop on an empty
  queue, std::thread assignment to a joinable thread which calls
  std::terminate, sendto through a NULL addrinfo pointer) is modelled
  by an `Option`/`crash` result: `none`/`crash` marks a path on which
  the source has no defined result.
-/

/-- Error codes of UDPNode.h, enum err_code.  The enum has no member
for an empty-queue condition. -/
inductive err_code where
  | SUCCESS
  | SOCKET_CONN_FAILED
  | BIND_FAILED
  | RECVFROM_FAILED
  | SENDTO_FAILED
  | GETADDRINFO_FAILED
  | PARSE_TIME_FAILED
  | PARSE_MSG_FAILED
  | PARSE_CRC_FAILED
deriving DecidableEq, Repr

/-- A received datagram, struct rxDatagram of UDPNode.h.  `msg` is the
byte sequence of the std::string member. -/
structure rxDatagram where
  srcport : Nat
  srcipaddr : String
  time_stamp : Nat
  msg : List Nat
  crc_checksum : Nat
  jointhread : Bool
deriving DecidableEq, Repr

/-- Sender metadata that recvfrom reports and parseDatagram copies into
the datagram (getInPort / inet_ntop on their_addr). -/
structure SenderMeta where
  port : Nat
  addr : String
deriving DecidableEq, Repr

/-- The wire frame at the JSON-object level: the four fields that
serialize can write and parseDatagram tests with HasMember. -/
structure Frame where
  time : Option Nat
  msg : Option (List Nat)
  crc : Option Nat
  join_thr : Option Bool
deriving DecidableEq, Repr

/-- The 32-bit unsigned image of the signed char holding byte b:
bytes of 128 and above sign-extend on integer promotion. -/
def sextChar (b : Nat) : Nat :=
  if b < 128 then b else 2 ^ 32 - 256 + b

/-- C strlen on a byte list: the number of bytes before the first NUL. -/
def strlen : List Nat → Nat
  | [] => 0
  | b :: rest => if b = 0 then 0 else strlen rest + 1

/-- The bytes of msg that its c_str exposes to strlen-based consumers:
the first strlen bytes of the NUL-terminated buffer msg ++ [0]. -/
def cstrBytes (msg : List Nat) : List Nat :=
  (msg ++ [0]).take (strlen (msg ++ [0]))

/-- The checksum function of the specification: the plain XOR fold of
the message bytes as unsigned 8-bit values (spec, sections 4.5 and 8). -/
def xorFold (msg : List Nat) : Nat :=
  msg.foldl (fun a b => a ^^^ b) 0

/-- One step of the CRC loop in UDPNode::serialize: the unsigned char
accumulator is XORed with the (possibly sign-extended) char and the
result narrows back to unsigned char, hence the mod 256. -/
def crcStep (acc b : Nat) : Nat :=
  (acc ^^^ sextChar b) % 256

/-- The CRC computed by UDPNode::serialize: a fold of crcStep over the
bytes msg.c_str()[0 .. strlen(msg.c_str())-1]. -/
def serializeCrc (msg : List Nat) : Nat :=
  (cstrBytes msg).foldl crcStep 0

/-- UDPNode::serialize at the frame level: Time is the capture time,
Msg is writer.String(msg.c_str()) (so the bytes up to the first NUL),
CRC is the unsigned char XOR fold of the same bytes, and Join_thr is
written only when jointhread is true. -/
def serialize (now : Nat) (msg : List Nat) (jointhread : Bool) : Frame :=
  { time := some now
    msg := some (cstrBytes msg)
    crc := some (serializeCrc msg)
    join_thr := if jointhread then some true else none }

/-- UDPNode::parseDatagram: fills the caller-supplied datagram d0 field
by field; each missing required field overwrites error_code (so the
last missing one of Time, Msg, CRC wins); Join_thr defaults to false
when absent.  Fields of d0 are kept where the frame has no value. -/
def parseDatagram (meta : SenderMeta) (f : Frame) (d0 : rxDatagram) :
    err_code × rxDatagram :=
  let d1 := { d0 with srcport := meta.port, srcipaddr := meta.addr }
  let st2 : err_code × rxDatagram :=
    match f.time with
    | some t => (err_code.SUCCESS, { d1 with time_stamp := t })
    | none => (err_code.PARSE_TIME_FAILED, d1)
  let st3 : err_code × rxDatagram :=
    match f.msg with
    | some m => (st2.1, { st2.2 with msg := m })
    | none => (err_code.PARSE_MSG_FAILED, st2.2)
  let st4 : err_code × rxDatagram :=
    match f.crc with
    | some c => (st3.1, { st3.2 with crc_checksum := c })
    | none => (err_code.PARSE_CRC_FAILED, st3.2)
  match f.join_thr with
  | some b => (st4.1, { st4.2 with jointhread := b })
  | none => (st4.1, { st4.2 with jointhread := false })

/-- UDPNode::isDatagramValid: XOR-fold of the chars of datagram.msg
into an `unsigned int` accumulator.  Each char promotes with sign
extension (sextChar); the accumulator stays below 2^32 because XOR
never exceeds its arguments in bit width. -/
def isDatagramValid (d : rxDatagram) : Bool :=
  d.msg.foldl (fun acc b => acc ^^^ sextChar b) 0 == d.crc_checksum

/-- UDPNode::writeRxDatagramToQueue: unconditional FIFO append (the
head of the list is the oldest element, std::queue front). -/
def writeRxDatagramToQueue (q : List rxDatagram) (d : rxDatagram) :
    List rxDatagram :=
  q ++ [d]

/-- UDPNode::readRxDatagramFromQueue: front then pop.  On an empty
std::queue both calls are undefined behaviour and the C++ produces no
defined result; that path is modelled as `none`.  Note that the
function returns rxDatagram and err_code has no empty-queue member, so
no error value can be produced either. -/
def readRxDatagramFromQueue (q : List rxDatagram) :
    Option (rxDatagram × List rxDatagram) :=
  match q with
  | [] => none
  | d :: rest => some (d, rest)

/-- The enqueue step of rxLoop restricted to the queue-capacity guard:
the conjunct `_rxqueue.size() < _maxqueuesize` of line 164 combined
with writeRxDatagramToQueue.  This is the realization of the spec
DatagramQueue.push; the Bool records whether the datagram was appended
(the jointhread and validity conjuncts are modelled in rxLoopStep). -/
def rxGuardedPush (maxq : Nat) (q : List rxDatagram) (d : rxDatagram) :
    List rxDatagram × Bool :=
  if q.length < maxq then (writeRxDatagramToQueue q d, true) else (q, false)

/-- The datagram rxLoop default-constructs before parseDatagram fills
it.  In C++ the scalar members are indeterminate, but no path of the
loop reads them: on parse success every member has been assigned, and
on failure the datagram is discarded.  msg is the default-empty
std::string. -/
def freshDatagram : rxDatagram :=
  { srcport := 0
    srcipaddr := ""
    time_stamp := 0
    msg := []
    crc_checksum := 0
    jointhread := false }

/-- Outcome of one recvfrom call as seen by the body of rxLoop:
failure (-1), an empty datagram (0 bytes, the body is skipped), or a
received frame with its sender metadata. -/
inductive RecvEvent where
  | recvErr
  | recvEmpty
  | recvOk (meta : SenderMeta) (f : Frame)
deriving DecidableEq, Repr

/-- What the loop does after one iteration: run another iteration, or
leave the while loop carrying the error code that is logged after it. -/
inductive LoopCtl where
  | cont
  | exit (e : err_code)
deriving DecidableEq, Repr

/-- One iteration of the while body of UDPNode::rxLoop: recvfrom
failure breaks with RECVFROM_FAILED; a parse failure logs and breaks
with the parse error; otherwise the datagram is appended exactly when
jointhread is false, the queue is below _maxqueuesize and the CRC
validates, and the loop continues. -/
def rxLoopStep (maxq : Nat) (q : List rxDatagram) (ev : RecvEvent) :
    List rxDatagram × LoopCtl :=
  match ev with
  | RecvEvent.recvErr => (q, LoopCtl.exit err_code.RECVFROM_FAILED)
  | RecvEvent.recvEmpty => (q, LoopCtl.cont)
  | RecvEvent.recvOk meta f =>
      let pr := parseDatagram meta f freshDatagram
      if pr.1 ≠ err_code.SUCCESS then (q, LoopCtl.exit pr.1)
      else if pr.2.jointhread = false ∧ q.length < maxq ∧
          isDatagramValid pr.2 then
        (writeRxDatagramToQueue q pr.2, LoopCtl.cont)
      else (q, LoopCtl.cont)

/-- Endpoint lifecycle state: the cooperative stop flag, whether
_rxthread holds a not-yet-joined thread (std::thread joinable), and
whether _listensockfd is an open descriptor (not -1). -/
structure NodeState where
  stoprecvthread : Bool
  threadJoinable : Bool
  listenSockOpen : Bool
deriving DecidableEq, Repr

/-- UDPNode::startRxLoop: clears the stop flag and assigns a new
thread to _rxthread.  Assigning to a std::thread that is still
joinable calls std::terminate, modelled as `none`. -/
def startRxLoop (st : NodeState) : Option NodeState :=
  if st.threadJoinable then none
  else some { st with stoprecvthread := false, threadJoinable := true }

/-- UDPNode::endRxLoop: sets the stop flag, unconditionally transmits
the sentinel datagram (tx of "Goodbye" with jointhread true — the Bool
of the result records that a datagram was sent), joins the thread if
joinable, and closes the listening socket if open. -/
def endRxLoop (st : NodeState) : NodeState × Bool :=
  ({ st with
      stoprecvthread := true
      threadJoinable := false
      listenSockOpen := false }, true)

/-- Result of UDPNode::tx: either a crash (undefined behaviour reached
before any return) or a returned error code together with whether the
per-call send socket was closed before returning. -/
inductive TxOutcome where
  | crash
  | ret (e : err_code) (sockClosed : Bool)
deriving DecidableEq, Repr

/-- UDPNode::tx over the outcomes of its three system calls.
resolveOk: whether getaddrinfo succeeds; socketOk: one Bool per
candidate address, whether socket() succeeds on it; sendOk: whether
sendto succeeds.  When getaddrinfo fails the code does not return:
it iterates the uninitialized result list (undefined behaviour).
When socket() fails on every candidate, tx_p is NULL and the code
still calls sendto(_sendsockfd, ..., tx_p->ai_addr, ...): a NULL
dereference.  Only with a usable socket does tx reach its return,
having closed the socket. -/
def tx (resolveOk : Bool) (socketOk : List Bool) (sendOk : Bool) :
    TxOutcome :=
  if resolveOk = false then TxOutcome.crash
  else if socketOk.all (fun b => b = false) then TxOutcome.crash
  else
    TxOutcome.ret
      (if sendOk then err_code.SUCCESS else err_code.SENDTO_FAILED) true

/-! ## Helper lemmas -/

/-- Truncation distributes over XOR: reducing mod a power of two before
or after XOR gives the same value. -/
theorem xor_mod_two_pow (x y n : Nat) :
    (x ^^^ y) % 2 ^ n = (x % 2 ^ n) ^^^ (y % 2 ^ n) := by
  apply Nat.eq_of_testBit_eq
  intro i
  simp [Nat.testBit_mod_two_pow, Nat.testBit_xor]
  cases decide (i < n) <;> simp

/-- XOR of two bytes is a byte. -/
theorem xor_lt_256 (a b : Nat) (ha : a < 256) (hb : b < 256) :
    a ^^^ b < 256 := by
  have h := @Nat.xor_lt_two_pow a b 8 (by norm_num [ha]) (by norm_num [hb])
  norm_num at h
  exact h

/-- The sign extension in the serialize CRC loop is invisible after the
narrowing back to unsigned char: one step equals a plain byte XOR. -/
theorem crcStep_eq_xor (acc b : Nat) (ha : acc < 256) (hb : b < 256) :
    crcStep acc b = acc ^^^ b := by
  unfold crcStep sextChar
  by_cases h : b < 128
  · simp only [if_pos h]
    exact Nat.mod_eq_of_lt (xor_lt_256 acc b ha hb)
  · simp only [if_neg h]
    have h256 : (256 : Nat) = 2 ^ 8 := by norm_num
    rw [h256, xor_mod_two_pow]
    have h1 : acc % 2 ^ 8 = acc := by omega
    have h2 : (2 ^ 32 - 2 ^ 8 + b) % 2 ^ 8 = b := by omega
    rw [h1, h2]

/-- Over bytes, the serialize CRC fold coincides with the plain XOR
fold. -/
theorem foldl_crcStep_eq (l : List Nat) :
    ∀ acc, (∀ b ∈ l, b < 256) → acc < 256 →
      l.foldl crcStep acc = l.foldl (fun a b => a ^^^ b) acc := by
  induction l with
  | nil => intro acc _ _; rfl
  | cons b rest ih =>
    intro acc h ha
    have hb : b < 256 := h b (List.mem_cons_self b rest)
    simp only [List.foldl_cons]
    rw [crcStep_eq_xor acc b ha hb]
    exact ih (acc ^^^ b) (fun x hx => h x (List.mem_cons_of_mem _ hx))
      (xor_lt_256 acc b ha hb)

/-- The bytes that c_str exposes are exactly the bytes before the first
NUL of the message. -/
theorem cstrBytes_eq_takeWhile (m : List Nat) :
    cstrBytes m = m.takeWhile (fun b => b != 0) := by
  induction m with
  | nil => rfl
  | cons b rest ih =>
    by_cases h : b = 0
    · subst h
      simp [cstrBytes, strlen, List.takeWhile_cons]
    · simp only [cstrBytes, strlen, List.cons_append, if_neg h,
        List.take_succ_cons, List.takeWhile_cons] at *
      simp [h, ih]

/-- A NUL-free message is untouched by the c_str truncation. -/
theorem takeWhile_ne_zero_eq_self (m : List Nat) (h : 0 ∉ m) :
    m.takeWhile (fun b => b != 0) = m := by
  apply List.takeWhile_eq_self_iff.mpr
  intro a ha
  have : a ≠ 0 := fun e => h (e ▸ ha)
  simpa using this

/-- The CRC that serialize stores is the spec xorFold of the bytes
before the first NUL. -/
theorem serializeCrc_eq_xorFold (m : List Nat) (h : ∀ b ∈ m, b < 256) :
    serializeCrc m = xorFold (m.takeWhile (fun b => b != 0)) := by
  unfold serializeCrc xorFold
  rw [cstrBytes_eq_takeWhile]
  exact foldl_crcStep_eq _ 0
    (fun b hb => h b ((List.takeWhile_sublist _).mem hb)) (by norm_num)

/-! ## Claim theorems -/

/-- Claim C1, counterexample.  The message [97, 0, 98] has byte length
3 < 1024 = maxMessageSize, yet encoding it with serialize and decoding
with parseDatagram yields a datagram whose msg is [97], not the
original message: the interior NUL truncates it. -/
theorem C1_roundtrip_counterexample :
    ([97, 0, 98] : List Nat).length < 1024 ∧
    (parseDatagram ⟨3490, "127.0.0.1"⟩ (serialize 7 [97, 0, 98] false)
      freshDatagram).2.msg = [97] ∧
    ([97] : List Nat) ≠ [97, 0, 98] := by
  refine ⟨by decide, ?_, by decide⟩
  rfl

/-- Claim C1, amended.  For every NUL-free message m of bytes with
length below maxMessageSize, decoding the frame produced by
serialize(m, false) yields SUCCESS and a datagram whose msg equals m,
whose crc_checksum equals xorFold(m), and whose jointhread flag is
false (source and port are the sender metadata, the timestamp is the
capture time). -/
theorem C1_roundtrip_nul_free (now maxmsg : Nat) (meta : SenderMeta)
    (m : List Nat) (hbytes : ∀ b ∈ m, b < 256) (hnul : 0 ∉ m)
    (hlen : m.length < maxmsg) :
    parseDatagram meta (serialize now m false) freshDatagram =
      (err_code.SUCCESS,
       { srcport := meta.port
         srcipaddr := meta.addr
         time_stamp := now
         msg := m
         crc_checksum := xorFold m
         jointhread := false }) := by
  have hc : cstrBytes m = m := by
    rw [cstrBytes_eq_takeWhile, takeWhile_ne_zero_eq_self m hnul]
  have hcrc : serializeCrc m = xorFold m := by
    rw [serializeCrc_eq_xorFold m hbytes, takeWhile_ne_zero_eq_self m hnul]
  simp [parseDatagram, serialize, hc, hcrc, freshDatagram]

/-- Claim C1, witness for the amended round-trip at the concrete
message [104, 105]. -/
theorem C1_roundtrip_nul_free_witness :
    parseDatagram ⟨3490, "127.0.0.1"⟩ (serialize 7 [104, 105] false)
      freshDatagram =
      (err_code.SUCCESS,
       { srcport := 3490
         srcipaddr := "127.0.0.1"
         time_stamp := 7
         msg := [104, 105]
         crc_checksum := xorFold [104, 105]
         jointhread := false }) :=
  C1_roundtrip_nul_free 7 1024 ⟨3490, "127.0.0.1"⟩ [104, 105]
    (by decide) (by decide) (by decide)

/-- Claim C2: refuted by the code (sign-extension bug).  For the
datagram with msg = [0xFF] and crc_checksum = 255 the unsigned XOR
fold equals the stored checksum (xorFold [255] = 255), yet
isDatagramValid returns false, because the char 0xFF sign-extends to
0xFFFFFFFF in the unsigned int accumulator; consequently an
encoded-then-decoded message containing 0xFF fails validation instead
of passing it. -/
theorem C2_checksum_sign_extension_bug :
    xorFold [255] = 255 ∧
    isDatagramValid { freshDatagram with msg := [255], crc_checksum := 255 }
      = false ∧
    ({ freshDatagram with msg := [255], crc_checksum := 255 } :
      rxDatagram).msg.foldl (fun acc b => acc ^^^ sextChar b) 0 =
      4294967295 ∧
    isDatagramValid
      (parseDatagram ⟨3490, "127.0.0.1"⟩ (serialize 5 [255] false)
        freshDatagram).2 = false := by
  refine ⟨by decide, by decide, by decide, ?_⟩
  rfl

/-- Claim C10: serialize computes both the Msg field and the CRC field
from the c_str of the message, so only the bytes before the first NUL
are transmitted and folded; a NUL-free message is used whole. -/
theorem C10_serialize_nul_truncation (now : Nat) (m : List Nat)
    (jt : Bool) (hbytes : ∀ b ∈ m, b < 256) :
    (serialize now m jt).msg = some (m.takeWhile (fun b => b != 0)) ∧
    (serialize now m jt).crc =
      some (xorFold (m.takeWhile (fun b => b != 0))) ∧
    (0 ∉ m → (serialize now m jt).msg = some m ∧
      (serialize now m jt).crc = some (xorFold m)) := by
  refine ⟨?_, ?_, ?_⟩
  · simp [serialize, cstrBytes_eq_takeWhile]
  · simp [serialize, serializeCrc_eq_xorFold m hbytes]
  · intro hnul
    constructor
    · simp [serialize, cstrBytes_eq_takeWhile,
        takeWhile_ne_zero_eq_self m hnul]
    · simp [serialize, serializeCrc_eq_xorFold m hbytes,
        takeWhile_ne_zero_eq_self m hnul]

/-- Claim C10, witness at the concrete message [97, 0, 98]: the Msg
field and the CRC input are the before-NUL bytes [97]. -/
theorem C10_serialize_nul_truncation_witness :
    (serialize 7 [97, 0, 98] false).msg = some [97] ∧
    (serialize 7 [97, 0, 98] false).crc = some 97 := by
  have h := C10_serialize_nul_truncation 7 [97, 0, 98] false (by decide)
  exact ⟨h.1.trans (by decide), h.2.1.trans (by decide)⟩

/-- Claim C3, counterexample.  A frame missing the Time field makes
parseDatagram fail, and the receive-loop iteration then exits the loop
(LoopCtl.exit PARSE_TIME_FAILED) instead of continuing: a parse
failure does terminate the loop. -/
theorem C3_parse_failure_counterexample :
    rxLoopStep 100 []
      (RecvEvent.recvOk ⟨3490, "127.0.0.1"⟩
        { time := none, msg := some [97], crc := some 97,
          join_thr := none }) =
      ([], LoopCtl.exit err_code.PARSE_TIME_FAILED) ∧
    LoopCtl.exit err_code.PARSE_TIME_FAILED ≠ LoopCtl.cont := by
  exact ⟨rfl, by decide⟩

/-- Claim C3, amended.  On a parse failure (PARSE_TIME_FAILED,
PARSE_MSG_FAILED or PARSE_CRC_FAILED) the receive loop logs, discards
the datagram without enqueuing it, and exits the loop carrying the
parse error, exactly as a failure of the receive call exits it with
RECVFROM_FAILED. -/
theorem C3_parse_failure_exits_loop (maxq : Nat) (q : List rxDatagram)
    (meta : SenderMeta) (f : Frame)
    (h : (parseDatagram meta f freshDatagram).1 ≠ err_code.SUCCESS) :
    rxLoopStep maxq q (RecvEvent.recvOk meta f) =
      (q, LoopCtl.exit (parseDatagram meta f freshDatagram).1) ∧
    rxLoopStep maxq q RecvEvent.recvErr =
      (q, LoopCtl.exit err_code.RECVFROM_FAILED) := by
  constructor
  · simp [rxLoopStep, h]
  · rfl

/-- Claim C3, witness: the amended statement applied at a concrete
frame missing the CRC field. -/
theorem C3_parse_failure_exits_loop_witness :
    rxLoopStep 100 []
      (RecvEvent.recvOk ⟨3490, "127.0.0.1"⟩
        { time := some 7, msg := some [97], crc := none,
          join_thr := none }) =
      ([], LoopCtl.exit
        (parseDatagram ⟨3490, "127.0.0.1"⟩
          { time := some 7, msg := some [97], crc := none,
            join_thr := none } freshDatagram).1) ∧
    rxLoopStep 100 [] RecvEvent.recvErr =
      ([], LoopCtl.exit err_code.RECVFROM_FAILED) :=
  C3_parse_failure_exits_loop 100 [] ⟨3490, "127.0.0.1"⟩
    { time := some 7, msg := some [97], crc := none, join_thr := none }
    (by decide)

/-- Claim C4: the guarded enqueue appends in FIFO order exactly when
the queue is below maxQueueSize and otherwise drops the datagram
leaving the queue unchanged; the size bound is invariant, a drop is
not retrievable by a later pop, and every receive-loop iteration
preserves the bound. -/
theorem C4_bounded_queue_push (maxq : Nat) (q : List rxDatagram)
    (d : rxDatagram) :
    ((rxGuardedPush maxq q d).2 = true ↔ q.length < maxq) ∧
    (q.length < maxq → rxGuardedPush maxq q d = (q ++ [d], true)) ∧
    (maxq ≤ q.length → rxGuardedPush maxq q d = (q, false)) ∧
    (q.length ≤ maxq → (rxGuardedPush maxq q d).1.length ≤ maxq) ∧
    (maxq ≤ q.length → d ∉ q → d ∉ (rxGuardedPush maxq q d).1) ∧
    (maxq ≤ q.length → ∀ x rest,
      readRxDatagramFromQueue (rxGuardedPush maxq q d).1 = some (x, rest) →
      x ∈ q) ∧
    (∀ ev : RecvEvent, q.length ≤ maxq →
      (rxLoopStep maxq q ev).1.length ≤ maxq) := by
  refine ⟨?_, ?_, ?_, ?_, ?_, ?_, ?_⟩
  · unfold rxGuardedPush
    split <;> simp_all
  · intro h
    simp [rxGuardedPush, writeRxDatagramToQueue, h]
  · intro h
    simp [rxGuardedPush, Nat.not_lt.mpr h]
  · intro h
    unfold rxGuardedPush writeRxDatagramToQueue
    split <;> simp <;> omega
  · intro h hd
    simp [rxGuardedPush, Nat.not_lt.mpr h, hd]
  · intro h x rest hpop
    rw [(by simp [rxGuardedPush, Nat.not_lt.mpr h] :
      (rxGuardedPush maxq q d).1 = q)] at hpop
    cases q with
    | nil => exact absurd hpop (by simp [readRxDatagramFromQueue])
    | cons a as =>
      simp only [readRxDatagramFromQueue, Option.some.injEq,
        Prod.mk.injEq] at hpop
      obtain ⟨h1, -⟩ := hpop
      subst h1
      simp
  · intro ev h
    cases ev with
    | recvErr => simpa using h
    | recvEmpty => simpa using h
    | recvOk meta f =>
      by_cases h1 : (parseDatagram meta f freshDatagram).1 ≠ err_code.SUCCESS
      · simp [rxLoopStep, h1, h]
      · by_cases h2 : (parseDatagram meta f freshDatagram).2.jointhread
            = false ∧ q.length < maxq ∧
            isDatagramValid (parseDatagram meta f freshDatagram).2 = true
        · obtain ⟨hj, hlt, hv⟩ := h2
          simp [rxLoopStep, h1, hj, hlt, hv, writeRxDatagramToQueue]
          omega
        · simp [rxLoopStep, h1, h2, h]

/-- Claim C4, witness: with maxQueueSize 1, a push onto the empty
queue appends and reports true, and a push onto a full queue leaves it
unchanged and reports false. -/
theorem C4_bounded_queue_push_witness :
    rxGuardedPush 1 [] freshDatagram = ([freshDatagram], true) ∧
    rxGuardedPush 1 [freshDatagram]
      { freshDatagram with srcport := 9 } = ([freshDatagram], false) := by
  constructor
  · exact (C4_bounded_queue_push 1 [] freshDatagram).2.1 (by decide)
  · exact ((C4_bounded_queue_push 1 [freshDatagram]
      { freshDatagram with srcport := 9 }).2.2.1 (by decide))

/-- Claim C5, counterexample.  readRxDatagramFromQueue on the empty
queue produces no result at all: the C++ calls front and pop on an
empty std::queue, which is undefined behaviour, and err_code has no
EmptyQueue member, so no EmptyQueue error is (or can be) returned. -/
theorem C5_pop_empty_counterexample :
    readRxDatagramFromQueue [] = none := rfl

/-- Claim C5, amended.  When the queue is non-empty, the pop removes
and returns the oldest buffered datagram (the FIFO front); when the
queue is empty the code has no defined result (undefined behaviour,
modelled none) rather than an EmptyQueue error. -/
theorem C5_pop_oldest (d : rxDatagram) (q : List rxDatagram) :
    readRxDatagramFromQueue (d :: q) = some (d, q) ∧
    readRxDatagramFromQueue (writeRxDatagramToQueue (d :: q)
      { freshDatagram with srcport := 8 }) =
      some (d, q ++ [{ freshDatagram with srcport := 8 }]) ∧
    readRxDatagramFromQueue [] = none := by
  exact ⟨rfl, rfl, rfl⟩

/-- Claim C6, counterexample.  Calling startRxLoop while the receive
thread is Running (joinable) is not a no-op: assigning a new
std::thread to the joinable _rxthread calls std::terminate, modelled
as none — the program aborts. -/
theorem C6_start_running_counterexample :
    startRxLoop (⟨false, true, true⟩ : NodeState) = none ∧
    (none : Option NodeState) ≠ some (⟨false, true, true⟩ : NodeState) := by
  exact ⟨rfl, by decide⟩

/-- Claim C6, amended.  Calling start while Running aborts the program
(std::thread assignment to a joinable thread calls std::terminate);
and after stop() the listening socket has been closed, so a subsequent
start() succeeds only in launching a loop whose socket is already
closed (its first recvfrom fails, exiting with RECVFROM_FAILED)
rather than running cleanly. -/
theorem C6_start_not_idempotent (st : NodeState)
    (h : st.threadJoinable = true) :
    startRxLoop st = none ∧
    startRxLoop (endRxLoop st).1 = some (⟨false, true, false⟩ : NodeState) ∧
    (∀ (maxq : Nat) (q : List rxDatagram),
      rxLoopStep maxq q RecvEvent.recvErr =
        (q, LoopCtl.exit err_code.RECVFROM_FAILED)) := by
  refine ⟨?_, ?_, fun maxq q => rfl⟩
  · simp [startRxLoop, h]
  · simp [startRxLoop, endRxLoop]

/-- Claim C6, witness for the amended statement at the concrete
Running state. -/
theorem C6_start_not_idempotent_witness :
    startRxLoop (⟨false, true, true⟩ : NodeState) = none ∧
    startRxLoop (endRxLoop (⟨false, true, true⟩ : NodeState)).1 =
      some (⟨false, true, false⟩ : NodeState) :=
  ⟨(C6_start_not_idempotent ⟨false, true, true⟩ rfl).1,
   (C6_start_not_idempotent ⟨false, true, true⟩ rfl).2.1⟩

/-- Claim C7, counterexample.  Calling endRxLoop on an Idle endpoint
(no joinable thread, open listening socket) sends the sentinel
datagram (the Bool of the result), closes the listening socket, and
changes the endpoint state — it is not a no-op. -/
theorem C7_stop_idle_counterexample :
    (endRxLoop (⟨false, false, true⟩ : NodeState)).2 = true ∧
    (endRxLoop (⟨false, false, true⟩ : NodeState)).1.listenSockOpen
      = false ∧
    (endRxLoop (⟨false, false, true⟩ : NodeState)).1 ≠
      (⟨false, false, true⟩ : NodeState) := by
  exact ⟨rfl, rfl, by decide⟩

/-- Claim C7, amended.  Calling stop when Idle still sets the stop
flag, unconditionally transmits the sentinel datagram, and closes the
listening socket; only the thread join is skipped. -/
theorem C7_stop_idle_not_noop (st : NodeState)
    (h : st.threadJoinable = false) :
    endRxLoop st =
      ({ st with stoprecvthread := true, listenSockOpen := false },
       true) := by
  simp [endRxLoop, ← h]

/-- Claim C7, witness for the amended statement at the concrete Idle
state. -/
theorem C7_stop_idle_not_noop_witness :
    endRxLoop (⟨false, false, true⟩ : NodeState) =
      ((⟨true, false, false⟩ : NodeState), true) :=
  C7_stop_idle_not_noop ⟨false, false, true⟩ rfl

/-- Claim C8: refuted by the code.  When every socket() call fails, tx
sets SOCKET_CONN_FAILED but then dereferences the NULL candidate
pointer in sendto — a crash, not an error return; likewise a
getaddrinfo failure leads into iterating an uninitialized result list.
Only the sendto-failure path returns its error code (SENDTO_FAILED)
with the per-call socket closed, as does the success path, including
when a later candidate is the first usable one. -/
theorem C8_tx_crash_paths :
    tx true [false] true = TxOutcome.crash ∧
    tx false [true] true = TxOutcome.crash ∧
    tx true [true] false = TxOutcome.ret err_code.SENDTO_FAILED true ∧
    tx true [false, true] true = TxOutcome.ret err_code.SUCCESS true := by
  exact ⟨rfl, rfl, rfl, rfl⟩

/-- Claim C9: in every iteration of the receive loop, either the queue
is unchanged, or the event was a successfully parsed frame whose
datagram has jointhread false, the queue was below capacity, the CRC
validated, and that datagram was FIFO-appended; in particular a frame
carrying jointhread = true is never enqueued. -/
theorem C9_enqueue_guard (maxq : Nat) (q : List rxDatagram)
    (ev : RecvEvent) :
    (rxLoopStep maxq q ev).1 = q ∨
    (∃ meta f, ev = RecvEvent.recvOk meta f ∧
      (parseDatagram meta f freshDatagram).1 = err_code.SUCCESS ∧
      (parseDatagram meta f freshDatagram).2.jointhread = false ∧
      q.length < maxq ∧
      isDatagramValid (parseDatagram meta f freshDatagram).2 = true ∧
      (rxLoopStep maxq q ev).1 =
        q ++ [(parseDatagram meta f freshDatagram).2]) := by
  cases ev with
  | recvErr => left; rfl
  | recvEmpty => left; rfl
  | recvOk meta f =>
    by_cases h1 : (parseDatagram meta f freshDatagram).1 ≠ err_code.SUCCESS
    · left; simp [rxLoopStep, h1]
    · push_neg at h1
      by_cases h2 : (parseDatagram meta f freshDatagram).2.jointhread
          = false ∧ q.length < maxq ∧
          isDatagramValid (parseDatagram meta f freshDatagram).2 = true
      · right
        obtain ⟨hj, hlt, hv⟩ := h2
        exact ⟨meta, f, rfl, h1, hj, hlt, hv,
          by simp [rxLoopStep, h1, hj, hlt, hv, writeRxDatagramToQueue]⟩
      · left
        simp [rxLoopStep, h1, h2]
